import Mathlib

/-!
# Natours REST API — verification of the query-translation and auth core

Shallow embedding of the in-scope core of the `natours` repository:
the `APIFeatures` query translator (`src/utils/apiFeatures.js`), the
`AppError` class (`src/utils/appError.js`), the global error handler,
the user model's password/reset-token instance methods and pre-save
hooks (`userModel.js`), and the auth controller middlewares
(`src/controllers/authController.js`).

JavaScript machine values are modelled as `Nat`/`Int`/`String`/`Option`;
`undefined` is `Option.none`; wall-clock times are `Nat` milliseconds.
External collaborators (the SHA-256 and bcrypt primitives, JWT signature
checking, the email-format validator, the mail transport) are passed in
as explicit function/flag parameters, exactly as the spec treats them as
external interfaces.
-/

namespace Natours

/-! ## Query Translator (`src/utils/apiFeatures.js`)

`APIFeatures.filter` copies `req.query`, deletes the four reserved keys,
serializes the rest with `JSON.stringify`, rewrites every word-boundary
occurrence of `gte|gt|lte|lt` to its `$`-prefixed form with
`String.replace(/\b(gte|gt|lte|lt)\b/g, m => "$" + m)`, and parses the
result back.

A query-string value (as produced by the express query parser) is either
a scalar string or a one-level map of sub-keys to strings
(`?price[gte]=500`). -/

inductive QVal where
  | scalar (v : String)
  | obj (m : List (String × String))
deriving DecidableEq, Repr

/-- Regex word characters, `[A-Za-z0-9_]` (ASCII input assumed). -/
def isWordChar (c : Char) : Bool := c.isAlphanum || c == '_'

/-- Does `c` belong to the same word/non-word class as the head of run `r`? -/
def matchClass (c : Char) : List Char → Bool
  | [] => false
  | d :: _ => isWordChar c == isWordChar d

/-- Prepend `c` to the current run when it has the same character class,
else start a new run. -/
def pushRun (c : Char) : List (List Char) → List (List Char)
  | [] => [[c]]
  | r :: rs => if matchClass c r then (c :: r) :: rs else [c] :: r :: rs

/-- Split a character list into maximal runs of word / non-word characters.
`\b` boundaries of the source regex fall exactly between adjacent runs, so a
word-boundary-delimited match of `gte|gt|lte|lt` is exactly a maximal
word-character run equal to one of the four operator words. -/
def splitRuns (l : List Char) : List (List Char) := l.foldr pushRun []

/-- The four operator suffixes recognized by the filter step. -/
def opWords : List String := ["gte", "gt", "lte", "lt"]

/-- One step of the regex rewrite: a maximal run equal to an operator word is
replaced by its `$`-prefixed form. -/
def replRun (r : List Char) : List Char :=
  if opWords.any (fun w => r == w.data) then '$' :: r else r

/-- `s.replace(/\b(gte|gt|lte|lt)\b/g, m => "$" + m)` on an ASCII string. -/
def opReplace (s : String) : String :=
  String.mk (((splitRuns s.data).map replRun).flatten)

/-- The regex rewrite applied to a (parsed-back) query value: inside the JSON
text both the sub-keys and the string values of a nested object, and the text
of a scalar string value, are subject to the replacement. -/
def replQVal : QVal → QVal
  | .scalar v => .scalar (opReplace v)
  | .obj m => .obj (m.map (fun p => (opReplace p.1, opReplace p.2)))

/-- The reserved keys deleted by the filter step (`excludedFields`). -/
def reservedFields : List String := ["page", "sort", "limit", "fields"]

namespace APIFeatures

/-- `APIFeatures.filter`: drop the reserved keys, then apply the operator
rewrite throughout the serialized object (keys, sub-keys, string values). -/
def filter (q : List (String × QVal)) : List (String × QVal) :=
  (q.filter (fun p => decide (p.1 ∉ reservedFields))).map
    (fun p => (opReplace p.1, replQVal p.2))

end APIFeatures

/-! ## Pagination (`APIFeatures.paginate`)

```js
const page = +this.queryStr.page || 1;
const limit = +this.queryStr.limit || 100;
this.query = this.query.skip((page - 1) * limit).limit(limit);
```
-/

def digitsToNat (l : List Char) : Nat :=
  l.foldl (fun acc c => acc * 10 + (c.toNat - '0'.toNat)) 0

/-- Model of the JS unary `+` coercion on an optional string query parameter,
restricted to the integer grammar: `none` (absent: `+undefined`) and
non-numeric strings give `NaN` (modelled as `none`, and total — coercion never
throws), the empty string gives `0`, and optionally `-`-signed digit strings
give their integer value. -/
def jsToNumber : Option String → Option Int
  | none => none
  | some s =>
    if s.data = [] then some 0
    else if s.data.all Char.isDigit then some (digitsToNat s.data : Int)
    else
      match s.data with
      | '-' :: rest =>
        if rest ≠ [] ∧ rest.all Char.isDigit then some (-(digitsToNat rest : Int))
        else none
      | _ => none

/-- JS `v || dflt`: the fallback fires exactly on the falsy numbers `NaN`
and `0`. -/
def jsOr (v : Option Int) (dflt : Int) : Int :=
  match v with
  | some n => if n = 0 then dflt else n
  | none => dflt

namespace APIFeatures

/-- `APIFeatures.paginate`: returns the pair (skip offset, limit) handed to
the query cursor. -/
def paginate (page limit : Option String) : Int × Int :=
  let p := jsOr (jsToNumber page) 1
  let l := jsOr (jsToNumber limit) 100
  ((p - 1) * l, l)

end APIFeatures

/-- The record store's `skip`/`limit` cursor on a materialized result list
(non-negative arguments). -/
def applyPagination (records : List α) (skip lim : Nat) : List α :=
  (records.drop skip).take lim

/-! ## `AppError` (`src/utils/appError.js`) and the global error handler

```js
constructor(message, statusCode) {
  super(message);
  this.statusCode = statusCode;
  this.status = `${statusCode}`.startsWith('4') ? 'fail' : 'error';
  this.isOperational = true;
}
```
-/

structure AppError where
  message : String
  statusCode : Option Nat
  status : String
  isOperational : Bool
deriving DecidableEq, Repr

/-- JS template interpolation of a possibly-`undefined` number. -/
def jsTemplateNat : Option Nat → String
  | some n => toString n
  | none => "undefined"

/-- JS `String.startsWith` (kernel-evaluable model). -/
def jsStartsWith (s pre : String) : Bool := pre.data.isPrefixOf s.data

/-- `new AppError(message, statusCode)`; `statusCode` is `none` when the call
site passes no second argument. -/
def mkAppError (message : String) (statusCode : Option Nat) : AppError :=
  { message
    statusCode
    status := if jsStartsWith (jsTemplateNat statusCode) "4" then "fail" else "error"
    isOperational := true }

/-- `err.statusCode = err.statusCode || 500` in the global error handler. -/
def handledStatusCode (e : AppError) : Nat := e.statusCode.getD 500

/-- `err.status = err.status || 'error'` in the global error handler
(`''` is the falsy string). -/
def handledStatus (e : AppError) : String := if e.status = "" then "error" else e.status

/-! ## User model (`userModel.js`) -/

structure UserRec where
  id : Nat
  name : String
  email : String
  role : String
  password : String
  active : Bool
  passwordChangedAt : Option Nat
  passwordResetToken : Option String
  passwordResetExpires : Option Nat
deriving DecidableEq, Repr

/-- The second pre-save hook: on a password modification of a non-new
document, `this.passwordChangedAt = Date.now() - 1000` (milliseconds). -/
def passwordChangedAtOnSave (nowMs : Nat) : Nat := nowMs - 1000

/-- `userSchema.methods.changePasswordAfter(JWTimeStamp)`: with a stored
`passwordChangedAt` (ms), compare the JWT issued-at (s) against
`parseInt(passwordChangedAt.getTime() / 1000, 10)`; without one, `false`. -/
def changePasswordAfter (u : UserRec) (jwtTimeStamp : Nat) : Bool :=
  match u.passwordChangedAt with
  | some ms => decide (jwtTimeStamp < ms / 1000)
  | none => false

/-- `User.findById` through the `pre(/^find/)` hook that filters out
`active: false` documents. -/
def findById (users : List UserRec) (uid : Nat) : Option UserRec :=
  users.find? (fun u => u.active && u.id == uid)

/-- `User.findOne({email})` through the same `pre(/^find/)` hook. -/
def findOneByEmail (users : List UserRec) (email : String) : Option UserRec :=
  users.find? (fun u => u.active && u.email == email)

/-- Persisting a (mutated) document: replace the record with the same id. -/
def saveUser (users : List UserRec) (u : UserRec) : List UserRec :=
  users.map (fun v => if v.id = u.id then u else v)

/-! ## Token Service (`jsonwebtoken` as used by `authController.js`) -/

/-- The decoded JWT payload: embedded user id, issued-at and expiry
(both in whole seconds, as the JWT library records them). -/
structure Token where
  id : Nat
  iat : Nat
  exp : Nat
deriving DecidableEq, Repr

/-- `signJWToken(id)` = `jwt.sign({id}, secret, {expiresIn})` at wall-clock
`nowMs`: `iat = floor(now/1000)`, `exp = iat + expiresIn`. -/
def signJWToken (nowMs expiresInSec uid : Nat) : Token :=
  { id := uid, iat := nowMs / 1000, exp := nowMs / 1000 + expiresInSec }

inductive VerifyResult where
  | ok (t : Token)
  | badSignature
  | expired
deriving DecidableEq, Repr

/-- `jwt.verify(token, secret)`: `decode` models signature checking and
payload recovery (`none` = invalid signature ⇒ `JsonWebTokenError` thrown);
an otherwise-valid token whose `exp` is not in the future throws
`TokenExpiredError`. -/
def jwtVerify (decode : String → Option Token) (nowMs : Nat) (tok : String) :
    VerifyResult :=
  match decode tok with
  | none => .badSignature
  | some t => if t.exp ≤ nowMs / 1000 then .expired else .ok t

/-! ## The `protect` middleware (`authController.js`) -/

/-- JS `String.split(' ')` on a character list: split at every space,
keeping empty fields. -/
def jsSplitSpace : List Char → List (List Char)
  | [] => [[]]
  | c :: rest =>
    match jsSplitSpace rest with
    | [] => if c = ' ' then [[], []] else [[c]]
    | w :: ws => if c = ' ' then [] :: w :: ws else (c :: w) :: ws

/-- Token extraction of `protect`: if the authorization header exists and
starts with `Bearer`, take `header.split(' ')[1]`; a missing piece leaves the
token `undefined`/empty (both falsy, modelled as `""`). -/
def extractToken : Option String → String
  | none => ""
  | some h =>
    if jsStartsWith h "Bearer" then
      match (jsSplitSpace h.data).get? 1 with
      | some w => String.mk w
      | none => ""
    else ""

/-- Outcome of an Express middleware: pass on (with the user attached to the
request), call `next` with an operational `AppError`, or propagate a thrown
library error (caught by `catchAsync`, forwarded by name). -/
inductive MwOutcome where
  | next (u : UserRec)
  | fail (e : AppError)
  | thrown (name : String)
deriving DecidableEq, Repr

/-- `exports.protect`: extract the bearer token (401 if falsy), verify it,
load the user by the embedded id (401 if gone), reject if the password
changed after issuance (401), else attach the user and continue. -/
def protect (decode : String → Option Token) (users : List UserRec)
    (nowMs : Nat) (authorization : Option String) : MwOutcome :=
  let token := extractToken authorization
  if token = "" then .fail (mkAppError "Please log in to get access" (some 401))
  else
    match jwtVerify decode nowMs token with
    | .badSignature => .thrown "JsonWebTokenError"
    | .expired => .thrown "TokenExpiredError"
    | .ok t =>
      match findById users t.id with
      | none => .fail (mkAppError "User does not exist" (some 401))
      | some currentUser =>
        if changePasswordAfter currentUser t.iat then
          .fail (mkAppError "Password has been changed, log in again!" (some 401))
        else .next currentUser

def handleJWTError : AppError :=
  mkAppError "Invalid token. Please log in again" (some 401)

def handleJWTErrorExpired : AppError :=
  mkAppError "Tour token has expired! PLease log in again" (some 401)

/-- The global error-handling middleware, production branch: an operational
`AppError` is sent with its (defaulted) status code; thrown JWT library
errors are first replaced by the 401 handlers; anything else is the generic
500 response.  Returns `none` when the middleware chain continued instead of
erroring; otherwise `(statusCode, status, message)`. -/
def globalErrorHandlerProd : MwOutcome → Option (Nat × String × String)
  | .next _ => none
  | .fail e => some (handledStatusCode e, handledStatus e, e.message)
  | .thrown n =>
    if n = "JsonWebTokenError" then
      some (handledStatusCode handleJWTError, handledStatus handleJWTError,
        handleJWTError.message)
    else if n = "TokenExpiredError" then
      some (handledStatusCode handleJWTErrorExpired,
        handledStatus handleJWTErrorExpired, handleJWTErrorExpired.message)
    else some (500, "error", "Something went wrong")

/-! ## Password-reset token lifecycle (`userModel.js`, `authController.js`) -/

/-- `userSchema.methods.createPasswordResetToken`: the random bytes are an
input (`crypto.randomBytes(32).toString('hex')` is external); the document
stores `sha256hex(resetToken)` and `Date.now() + 10 * 60 * 1000`, and the
plaintext is returned.  `sha` is the external SHA-256-hex primitive. -/
def createPasswordResetToken (sha : String → String) (nowMs : Nat)
    (u : UserRec) (randomTok : String) : String × UserRec :=
  (randomTok,
   { u with passwordResetToken := some (sha randomTok),
            passwordResetExpires := some (nowMs + 10 * 60 * 1000) })

/-- The `resetPassword` user lookup:
`User.findOne({passwordResetToken: sha256hex(plain), passwordResetExpires: {$gt: Date.now()}})`
(through the `active` pre-find hook; a missing expiry field never satisfies
`$gt`). -/
def resetLookup (sha : String → String) (nowMs : Nat) (users : List UserRec)
    (plain : String) : Option UserRec :=
  users.find? (fun u =>
    u.active && u.passwordResetToken == some (sha plain) &&
      match u.passwordResetExpires with
      | some e => decide (nowMs < e)
      | none => false)

/-- `exports.resetPassword`: hash the presented plaintext token, look the user
up by hash + unexpired expiry, 400 if none; otherwise set the new password
(`passwordConfirm` is set to the same value, so its equality validator always
passes; the minimum-length validator still runs and a short password raises a
ValidationError, rendered by the handler as a 400), clear both reset fields,
and save — the save triggers the pre-save hooks, which bcrypt-hash the
password (`hash`) and set `passwordChangedAt = Date.now() - 1000`. -/
def resetPassword (sha hash : String → String) (nowMs : Nat)
    (users : List UserRec) (plain newPw : String) :
    Except AppError (UserRec × List UserRec) :=
  match resetLookup sha nowMs users plain with
  | none =>
    .error (mkAppError "There is no user or your token has expired. Please try again"
      (some 400))
  | some user =>
    if newPw.length < 8 then
      .error (mkAppError "Invalid input data: Password must have at least 8 characters"
        (some 400))
    else
      let user' := { user with
        password := hash newPw,
        passwordResetExpires := none,
        passwordResetToken := none,
        passwordChangedAt := some (passwordChangedAtOnSave nowMs) }
      .ok (user', saveUser users user')

inductive ForgotOutcome where
  | notFound (e : AppError)
  | sent
  | emailFail (e : AppError)
deriving DecidableEq, Repr

/-- `exports.forgotPassword`: look the user up by posted email (404 if
absent), generate and persist the reset-token fields
(`save({validateBeforeSave: false})`), then send the email (`sendOk` is the
external mail transport's outcome); on failure, clear both fields, persist
the clear, and surface a 500 `AppError`.  Returns the post-state of the user
collection together with the outcome. -/
def forgotPassword (sha : String → String) (nowMs : Nat) (users : List UserRec)
    (email randomTok : String) (sendOk : Bool) : List UserRec × ForgotOutcome :=
  match findOneByEmail users email with
  | none =>
    (users, .notFound (mkAppError "Cannot find user. Check yout email and try again"
      (some 404)))
  | some user =>
    let user1 := (createPasswordResetToken sha nowMs user randomTok).2
    let users1 := saveUser users user1
    if sendOk then (users1, .sent)
    else
      let user2 := { user1 with passwordResetToken := none,
                                passwordResetExpires := none }
      (saveUser users1 user2,
       .emailFail (mkAppError "There was an error sendig the email. PLease try again!"
         (some 500)))

/-! ## `signup` (`authController.js`) and `User.create` (`userModel.js`) -/

structure SignupBody where
  name : Option String
  email : Option String
  role : Option String
  password : Option String
  passwordConfirm : Option String
deriving DecidableEq, Repr

/-- The `role` field's `enum` in `userSchema`. -/
def roleEnum : List String := ["user", "admin", "guide", "lead-guide"]

/-- Mongoose `lowercase: true` setter on the email path. -/
def jsLowerString (s : String) : String := String.mk (s.data.map Char.toLower)

/-- `exports.signup` = `User.create({name, email, role, password,
passwordConfirm})` on the caller-supplied body: schema validation (required
fields, email format via the external `isEmail` validator, password length,
confirmation equality, `role` within its enum — defaulting to `"user"` only
when absent), then the pre-save hook bcrypt-hashes the password (`hash`) and
drops `passwordConfirm`; the document is new, so `passwordChangedAt` is not
set.  Validation failures surface through the handler as 400s. -/
def signup (hash : String → String) (isEmail : String → Bool)
    (body : SignupBody) (newId : Nat) : Except AppError UserRec :=
  match body.name, body.email, body.password, body.passwordConfirm with
  | some nm, some em, some pw, some pwc =>
    if isEmail (jsLowerString em) = false then
      .error (mkAppError "Invalid input data: Please provide a valid email" (some 400))
    else if pw.length < 8 then
      .error (mkAppError "Invalid input data: Password must have at least 8 characters"
        (some 400))
    else if pwc ≠ pw then
      .error (mkAppError "Invalid input data: Passwords are not the same" (some 400))
    else
      match body.role with
      | some r =>
        if r ∈ roleEnum then
          .ok { id := newId, name := nm, email := jsLowerString em, role := r,
                password := hash pw, active := true, passwordChangedAt := none,
                passwordResetToken := none, passwordResetExpires := none }
        else
          .error (mkAppError "Invalid input data: role is not a valid enum value"
            (some 400))
      | none =>
        .ok { id := newId, name := nm, email := jsLowerString em, role := "user",
              password := hash pw, active := true, passwordChangedAt := none,
              passwordResetToken := none, passwordResetExpires := none }
  | _, _, _, _ =>
    .error (mkAppError "Invalid input data: missing required field" (some 400))

/-! ## `login` (`authController.js`) -/

structure LoginBody where
  email : Option String
  password : Option String
deriving DecidableEq, Repr

inductive LoginResult where
  | err (e : AppError)
  | token (uid : Nat)
deriving DecidableEq, Repr

/-- `exports.login`: on a falsy email or password (absent or empty string),
`next(new AppError('Please provide email and password'), 400)` — note the
`400` is passed as a second argument to `next`, not to the `AppError`
constructor, so the constructed error carries no status code.  Otherwise look
the user up by email and check the password with the external bcrypt compare
(`verifyPw`); mismatch or missing user is a 401. -/
def login (verifyPw : String → String → Bool) (users : List UserRec)
    (body : LoginBody) : LoginResult :=
  let email := body.email.getD ""
  let password := body.password.getD ""
  if email = "" ∨ password = "" then
    .err (mkAppError "Please provide email and password" none)
  else
    match findOneByEmail users email with
    | none => .err (mkAppError "Incorrect email or password" (some 401))
    | some user =>
      if verifyPw password user.password then .token user.id
      else .err (mkAppError "Incorrect email or password" (some 401))

/-! ## Concrete scenario used by counterexamples and witnesses -/

/-- A token signed at wall-clock 10000 ms (`iat = 10`) for user 1, expiring
100000 s later. -/
def demoToken : Token := signJWToken 10000 100000 1

/-- Signature model: exactly the string `"tok"` verifies, to `demoToken`. -/
def demoDecode : String → Option Token :=
  fun s => if s = "tok" then some demoToken else none

/-- User 1, whose password was changed at wall-clock 10001 ms — one
millisecond after `demoToken` was issued — so the pre-save hook stored
`passwordChangedAt = 10001 - 1000 = 9001`. -/
def demoUserQuickChange : UserRec :=
  { id := 1, name := "Ann", email := "ann@example.com", role := "user",
    password := "bcrypt-digest", active := true,
    passwordChangedAt := some (passwordChangedAtOnSave 10001),
    passwordResetToken := none, passwordResetExpires := none }

/-- User 1, whose password was changed at wall-clock 21000 ms — well after
`demoToken` was issued (`passwordChangedAt = 20000`). -/
def demoUserStale : UserRec :=
  { id := 1, name := "Ann", email := "ann@example.com", role := "user",
    password := "bcrypt-digest", active := true,
    passwordChangedAt := some (passwordChangedAtOnSave 21000),
    passwordResetToken := none, passwordResetExpires := none }

/-! # Theorems -/

/-! ## Facts about the run-splitting model of the regex rewrite -/

theorem join_pushRun (c : Char) (rs : List (List Char)) :
    (pushRun c rs).flatten = c :: rs.flatten := by
  cases rs with
  | nil => rfl
  | cons r rs =>
    unfold pushRun
    by_cases h : matchClass c r = true
    · simp [h]
    · simp [h]

theorem join_splitRuns (l : List Char) : (splitRuns l).flatten = l := by
  induction l with
  | nil => rfl
  | cons c l ih =>
    show (pushRun c (splitRuns l)).flatten = c :: l
    rw [join_pushRun, ih]

/-- Either the rewrite leaves a string unchanged, or its result contains a
dollar sign. -/
theorem opReplace_eq_or_mem_dollar (s : String) :
    opReplace s = s ∨ '$' ∈ (opReplace s).data := by
  have key : ∀ runs : List (List Char),
      (runs.map replRun).flatten = runs.flatten ∨ '$' ∈ (runs.map replRun).flatten := by
    intro runs
    induction runs with
    | nil => left; rfl
    | cons r rs ih =>
      by_cases h : opWords.any (fun w => r == w.data) = true
      · right
        have hr : replRun r = '$' :: r := by simp [replRun, h]
        rw [List.map_cons, List.flatten_cons, hr]
        exact List.mem_append_left _ (List.mem_cons_self _ _)
      · have hr : replRun r = r := by simp [replRun, h]
        rw [List.map_cons, List.flatten_cons, hr, List.flatten_cons]
        rcases ih with h1 | h1
        · left; rw [h1]
        · right; exact List.mem_append_right _ h1
  rcases key (splitRuns s.data) with h | h
  · left
    show String.mk ((splitRuns s.data).map replRun).flatten = s
    rw [h, join_splitRuns]
  · right
    exact h

/-- A reserved key contains no dollar sign, so nothing rewrites onto it. -/
theorem opReplace_eq_reserved {k r : String} (hr : r ∈ reservedFields)
    (h : opReplace k = r) : k = r := by
  rcases opReplace_eq_or_mem_dollar k with h1 | h1
  · rw [← h1, h]
  · exfalso
    rw [h] at h1
    have : r = "page" ∨ r = "sort" ∨ r = "limit" ∨ r = "fields" := by
      simpa [reservedFields] using hr
    rcases this with rfl | rfl | rfl | rfl <;> revert h1 <;> decide

/-- C2: the filter built by `APIFeatures.filter` never contains any of the four
reserved keys `page`, `sort`, `limit`, `fields`; every surviving parameter whose
value is a mapping has its operator sub-keys `gte`, `gt`, `lte`, `lt` rewritten
into the store's `$`-prefixed comparison-operator syntax (so `price[gte]=500`
becomes `price: {$gte: 500}`); scalar parameters survive as exact-match
(key ↦ scalar value) equality entries. -/
theorem filter_reserved_and_operator_rewrite (q : List (String × QVal)) :
    (∀ r ∈ reservedFields, ∀ v : QVal, (r, v) ∉ APIFeatures.filter q) ∧
    (∀ w ∈ opWords, opReplace w = "$" ++ w) ∧
    (∀ k m, (k, QVal.obj m) ∈ q → k ∉ reservedFields →
      (opReplace k, QVal.obj (m.map (fun p => (opReplace p.1, opReplace p.2))))
        ∈ APIFeatures.filter q) ∧
    (∀ k v, (k, QVal.scalar v) ∈ q → k ∉ reservedFields →
      (opReplace k, QVal.scalar (opReplace v)) ∈ APIFeatures.filter q) := by
  refine ⟨?_, by decide, ?_, ?_⟩
  · intro r hr v hmem
    unfold APIFeatures.filter at hmem
    rcases List.mem_map.mp hmem with ⟨p, hp, heq⟩
    have hkey : opReplace p.1 = r := congrArg Prod.fst heq
    have hout : p.1 ∉ reservedFields := by
      have := (List.mem_filter.mp hp).2
      exact of_decide_eq_true this
    exact hout (opReplace_eq_reserved hr hkey ▸ hr)
  · intro k m hmem hres
    have hf : (k, QVal.obj m) ∈
        q.filter (fun p => decide (p.1 ∉ reservedFields)) :=
      List.mem_filter.mpr ⟨hmem, decide_eq_true hres⟩
    exact List.mem_map_of_mem _ hf
  · intro k v hmem hres
    have hf : (k, QVal.scalar v) ∈
        q.filter (fun p => decide (p.1 ∉ reservedFields)) :=
      List.mem_filter.mpr ⟨hmem, decide_eq_true hres⟩
    exact List.mem_map_of_mem _ hf

/-- Witness for C2 on the spec's example query `?price[gte]=500&page=2`:
the produced filter contains `price: {$gte: 500}` and the reserved key `page`
does not survive into it. -/
theorem filter_reserved_and_operator_rewrite_witness :
    ("price", QVal.obj [("$gte", "500")]) ∈ APIFeatures.filter
      [("price", QVal.obj [("gte", "500")]), ("page", QVal.scalar "2")] ∧
    ("page", QVal.scalar "2") ∉ APIFeatures.filter
      [("price", QVal.obj [("gte", "500")]), ("page", QVal.scalar "2")] := by
  have h := filter_reserved_and_operator_rewrite
    [("price", QVal.obj [("gte", "500")]), ("page", QVal.scalar "2")]
  refine ⟨?_, h.1 "page" (by decide) (QVal.scalar "2")⟩
  have h3 := h.2.2.1 "price" [("gte", "500")] (by decide) (by decide)
  have he : ((opReplace "price",
      QVal.obj ([("gte", "500")].map (fun p => (opReplace p.1, opReplace p.2))))
      : String × QVal) = ("price", QVal.obj [("$gte", "500")]) := by decide
  exact he ▸ h3

/-- C3 counterexample: the numeric parameter `page=-5` is not coerced to a
positive integer — `+"-5" = -5` is truthy, so no fallback fires and the
computed skip offset is `(-5 - 1) * 10 = -60`, which is negative, impossible
had `page` been coerced to a positive integer. -/
theorem paginate_negative_page_counterexample :
    (APIFeatures.paginate (some "-5") (some "10")).1 = -60 ∧ (-60 : Int) < 0 := by
  constructor
  · decide
  · decide

/-- C3 (amended): `page` defaults to `1` and `limit` to `100` when the raw
parameter is absent, non-numeric, or numerically zero (the coercion is total,
never throwing); any other numeric value — including a negative one — is used
as-is; the computed offset equals `(page - 1) * limit`; and the cursor returns
at most `limit` records. -/
theorem paginate_defaults_and_offset (ps ls : Option String) (records : List α) :
    (jsToNumber ps = none ∨ jsToNumber ps = some 0 → jsOr (jsToNumber ps) 1 = 1) ∧
    (jsToNumber ls = none ∨ jsToNumber ls = some 0 → jsOr (jsToNumber ls) 100 = 100) ∧
    (∀ n : Int, jsToNumber ps = some n → n ≠ 0 → jsOr (jsToNumber ps) 1 = n) ∧
    (APIFeatures.paginate ps ls).1
      = (jsOr (jsToNumber ps) 1 - 1) * jsOr (jsToNumber ls) 100 ∧
    (APIFeatures.paginate ps ls).2 = jsOr (jsToNumber ls) 100 ∧
    (applyPagination records (APIFeatures.paginate ps ls).1.toNat
        (APIFeatures.paginate ps ls).2.toNat).length
      ≤ (APIFeatures.paginate ps ls).2.toNat := by
  refine ⟨?_, ?_, ?_, rfl, rfl, ?_⟩
  · rintro (h | h) <;> rw [h] <;> simp [jsOr]
  · rintro (h | h) <;> rw [h] <;> simp [jsOr]
  · intro n h hn
    rw [h]
    simp [jsOr, hn]
  · exact List.length_take_le _ _

/-- Witness for C3 (amended): a non-numeric `page` falls back to `1`, and the
spec's example `page=2&limit=10` computes offset `10`. -/
theorem paginate_defaults_and_offset_witness :
    jsOr (jsToNumber (some "abc")) 1 = 1 ∧
    (APIFeatures.paginate (some "2") (some "10")).1 = 10 := by
  constructor
  · exact (paginate_defaults_and_offset (some "abc") (some "10")
      ([] : List Nat)).1 (Or.inl (by decide))
  · have h := (paginate_defaults_and_offset (some "2") (some "10")
      ([] : List Nat)).2.2.2.1
    rw [h]
    decide

/-- C1 counterexample: `demoToken` was issued at wall-clock 10000 ms and user
1's password was changed at 10001 ms — strictly later — yet `protect`
authenticates the (unexpired) token instead of failing with the 401
invalidation error: the pre-save hook backdates `passwordChangedAt` by one
second (to 9001 ms) and `changePasswordAfter` compares whole seconds
(`10 < 9` is false). -/
theorem protect_password_change_counterexample :
    (10000 : Nat) < 10001 ∧
    demoToken = signJWToken 10000 100000 1 ∧
    demoUserQuickChange.passwordChangedAt = some (passwordChangedAtOnSave 10001) ∧
    (500000 : Nat) / 1000 < demoToken.exp ∧
    protect demoDecode [demoUserQuickChange] 500000 (some "Bearer tok")
      = .next demoUserQuickChange := by
  refine ⟨by decide, rfl, rfl, by decide, by decide⟩

/-- C1 (amended): token invalidation on password change is computed solely by
comparing the token's issued-at to the user's stored `passwordChangedAt`: for
a token issued at wall-clock `T` ms, `changePasswordAfter` fires exactly when
`T / 1000 < passwordChangedAt / 1000`, where the pre-save hook stores
`passwordChangedAt = T2 - 1000` for a change at wall-clock `T2` ms.  In
particular, whenever the password changes at `T2 ≥ T + 2000`, the unexpired
token is rejected by `protect` with the 401 password-changed error — but not
necessarily for every `T2 > T` (see the counterexample: the one-second
backdating and whole-second truncation tolerate changes within about two
seconds of issuance). -/
theorem protect_password_change_amended (decode : String → Option Token)
    (users : List UserRec) (nowMs T expSec uid T2 : Nat)
    (hd : Option String) (tok : String) (u : UserRec)
    (htok : extractToken hd = tok) (hne : tok ≠ "")
    (hdec : decode tok = some (signJWToken T expSec uid))
    (hexp : nowMs / 1000 < T / 1000 + expSec)
    (hfind : findById users uid = some u)
    (hchanged : u.passwordChangedAt = some (passwordChangedAtOnSave T2))
    (hT2 : T + 2000 ≤ T2) :
    changePasswordAfter u ((signJWToken T expSec uid).iat)
      = decide (T / 1000 < (T2 - 1000) / 1000) ∧
    protect decode users nowMs hd
      = .fail (mkAppError "Password has been changed, log in again!" (some 401)) := by
  have hcmp : changePasswordAfter u ((signJWToken T expSec uid).iat)
      = decide (T / 1000 < (T2 - 1000) / 1000) := by
    rw [changePasswordAfter, hchanged]
    rfl
  have hlt : T / 1000 < (T2 - 1000) / 1000 := by
    have h1 : T + 1000 ≤ T2 - 1000 := by omega
    have h2 : (T + 1000) / 1000 ≤ (T2 - 1000) / 1000 := Nat.div_le_div_right h1
    have h3 : (T + 1000) / 1000 = T / 1000 + 1 := Nat.add_div_right T (by norm_num)
    omega
  refine ⟨hcmp, ?_⟩
  unfold protect
  rw [htok, if_neg hne]
  have hnexp : ¬ (signJWToken T expSec uid).exp ≤ nowMs / 1000 := by
    show ¬ (T / 1000 + expSec ≤ nowMs / 1000)
    omega
  have hid : (signJWToken T expSec uid).id = uid := rfl
  have hcmp2 : changePasswordAfter u ((signJWToken T expSec uid).iat) = true := by
    rw [hcmp]
    exact decide_eq_true hlt
  simp [jwtVerify, hdec, hnexp, hid, hfind, hcmp2]

/-- Witness for C1 (amended): the token issued at 10000 ms is rejected by
`protect` once user 1's password changed at 21000 ms. -/
theorem protect_password_change_amended_witness :
    protect demoDecode [demoUserStale] 500000 (some "Bearer tok")
      = .fail (mkAppError "Password has been changed, log in again!" (some 401)) :=
  (protect_password_change_amended demoDecode [demoUserStale] 500000
    10000 100000 1 21000 (some "Bearer tok") "tok" demoUserStale
    (by decide) (by decide) (by decide) (by decide) (by decide) (by decide)
    (by decide)).2

/-- C4 counterexample: a request in which none of the claim's three failure
cases holds — the header is present with the Bearer scheme, the token decodes
and is unexpired at wall-clock 500000 ms, and user 1 exists — yet `protect`
does not attach the user and call onward: it fails with a 401, because the
user's password was changed after the token was issued (the fourth gate the
claim omits). -/
theorem protect_gates_counterexample :
    demoDecode "tok" = some demoToken ∧
    (500000 : Nat) / 1000 < demoToken.exp ∧
    findById [demoUserStale] demoToken.id = some demoUserStale ∧
    protect demoDecode [demoUserStale] 500000 (some "Bearer tok")
      = .fail (mkAppError "Password has been changed, log in again!" (some 401)) := by
  exact ⟨rfl, by decide, by decide, by decide⟩

/-- C4 (amended): `protect` (through the production error handler) responds
401 in each of these cases: the authorization header is absent or does not
start with `Bearer` (extraction yields a falsy token); the token fails
signature verification; the token is expired; the embedded user no longer
exists; — and additionally when the user's password changed after the token's
issued-at.  Only when none of the five cases holds does it attach the
resolved user and call onward. -/
theorem protect_gates_amended (decode : String → Option Token)
    (users : List UserRec) (nowMs : Nat) (hd : Option String) :
    (extractToken none = "") ∧
    (∀ h : String, jsStartsWith h "Bearer" = false → extractToken (some h) = "") ∧
    (extractToken hd = "" →
      globalErrorHandlerProd (protect decode users nowMs hd)
        = some (401, "fail", "Please log in to get access")) ∧
    (∀ tok : String, extractToken hd = tok → tok ≠ "" → decode tok = none →
      globalErrorHandlerProd (protect decode users nowMs hd)
        = some (401, "fail", "Invalid token. Please log in again")) ∧
    (∀ tok t, extractToken hd = tok → tok ≠ "" → decode tok = some t →
      t.exp ≤ nowMs / 1000 →
      globalErrorHandlerProd (protect decode users nowMs hd)
        = some (401, "fail", "Tour token has expired! PLease log in again")) ∧
    (∀ tok t, extractToken hd = tok → tok ≠ "" → decode tok = some t →
      nowMs / 1000 < t.exp → findById users t.id = none →
      globalErrorHandlerProd (protect decode users nowMs hd)
        = some (401, "fail", "User does not exist")) ∧
    (∀ tok t u, extractToken hd = tok → tok ≠ "" → decode tok = some t →
      nowMs / 1000 < t.exp → findById users t.id = some u →
      changePasswordAfter u t.iat = true →
      globalErrorHandlerProd (protect decode users nowMs hd)
        = some (401, "fail", "Password has been changed, log in again!")) ∧
    (∀ tok t u, extractToken hd = tok → tok ≠ "" → decode tok = some t →
      nowMs / 1000 < t.exp → findById users t.id = some u →
      changePasswordAfter u t.iat = false →
      protect decode users nowMs hd = .next u) := by
  refine ⟨rfl, ?_, ?_, ?_, ?_, ?_, ?_, ?_⟩
  · intro h hw
    simp [extractToken, hw]
  · intro h0
    unfold protect
    rw [h0, if_pos rfl]
    decide
  · intro tok htok hne hdec
    unfold protect
    rw [htok, if_neg hne]
    simp only [jwtVerify, hdec]
    decide
  · intro tok t htok hne hdec hexp
    unfold protect
    rw [htok, if_neg hne]
    simp only [jwtVerify, hdec]
    rw [if_pos hexp]
    rfl
  · intro tok t htok hne hdec hexp hfind
    unfold protect
    rw [htok, if_neg hne]
    simp only [jwtVerify, hdec]
    rw [if_neg (Nat.not_le.mpr hexp)]
    simp only [hfind]
    decide
  · intro tok t u htok hne hdec hexp hfind hch
    unfold protect
    rw [htok, if_neg hne]
    simp only [jwtVerify, hdec]
    rw [if_neg (Nat.not_le.mpr hexp)]
    simp only [hfind, hch, if_true]
    decide
  · intro tok t u htok hne hdec hexp hfind hch
    unfold protect
    rw [htok, if_neg hne]
    simp only [jwtVerify, hdec]
    rw [if_neg (Nat.not_le.mpr hexp)]
    simp only [hfind, hch]
    simp

/-- Witness for C4 (amended): with no authorization header the response is the
401 `Please log in to get access` error, and on a good request (user 1 with an
unchanged password) `protect` attaches the user and continues. -/
theorem protect_gates_amended_witness :
    globalErrorHandlerProd (protect demoDecode [demoUserQuickChange] 500000 none)
      = some (401, "fail", "Please log in to get access") ∧
    protect demoDecode [demoUserQuickChange] 500000 (some "Bearer tok")
      = .next demoUserQuickChange := by
  constructor
  · exact (protect_gates_amended demoDecode [demoUserQuickChange] 500000 none).2.2.1
      (by decide)
  · exact (protect_gates_amended demoDecode [demoUserQuickChange] 500000
      (some "Bearer tok")).2.2.2.2.2.2.2 "tok" demoToken demoUserQuickChange
      (by decide) (by decide) (by decide) (by decide) (by decide) (by decide)

/-- Updating a persisted document: a member of `saveUser users w` whose id is
`w`'s id is `w` itself (the store replaces every record with that id). -/
theorem mem_saveUser_id {users : List UserRec} {w x : UserRec}
    (hx : x ∈ saveUser users w) (hid : x.id = w.id) : x = w := by
  rcases List.mem_map.mp hx with ⟨y, hy, rfl⟩
  by_cases h : y.id = w.id
  · simp [h]
  · rw [if_neg h] at hid ⊢
    exact absurd hid h

/-- C5: for every plaintext reset token produced by
`createPasswordResetToken`, applying the same deterministic, salt-free
SHA-256-hex transform that `resetPassword` applies to a presented candidate
(`sha`) reproduces exactly the hash persisted at issuance — and consequently,
while the token is unexpired, the equality lookup by the stored hash finds
the user. -/
theorem createPasswordResetToken_round_trip (sha : String → String)
    (nowMs : Nat) (u : UserRec) (randomTok : String) :
    ((createPasswordResetToken sha nowMs u randomTok).2).passwordResetToken
      = some (sha ((createPasswordResetToken sha nowMs u randomTok).1)) ∧
    (∀ now2 : Nat, u.active = true → now2 < nowMs + 10 * 60 * 1000 →
      resetLookup sha now2 [(createPasswordResetToken sha nowMs u randomTok).2]
        ((createPasswordResetToken sha nowMs u randomTok).1)
        = some ((createPasswordResetToken sha nowMs u randomTok).2)) := by
  refine ⟨rfl, ?_⟩
  intro now2 hact hlt
  simp [resetLookup, createPasswordResetToken, List.find?, hact, hlt]

/-- Witness for C5: with hash model `s ↦ "#" ++ s`, issuing at 1000 ms stores
hash `#rnd` of the returned plaintext `rnd`, and the lookup at 2000 ms
succeeds. -/
theorem createPasswordResetToken_round_trip_witness :
    ((createPasswordResetToken (fun s => "#" ++ s) 1000 demoUserQuickChange
        "rnd").2).passwordResetToken
      = some ((fun s : String => "#" ++ s)
          ((createPasswordResetToken (fun s => "#" ++ s) 1000 demoUserQuickChange
            "rnd").1)) ∧
    resetLookup (fun s => "#" ++ s) 2000
        [(createPasswordResetToken (fun s => "#" ++ s) 1000 demoUserQuickChange
          "rnd").2]
        ((createPasswordResetToken (fun s => "#" ++ s) 1000 demoUserQuickChange
          "rnd").1)
      = some ((createPasswordResetToken (fun s => "#" ++ s) 1000
          demoUserQuickChange "rnd").2) := by
  have h := createPasswordResetToken_round_trip (fun s => "#" ++ s) 1000
    demoUserQuickChange "rnd"
  exact ⟨h.1, h.2 2000 (by decide) (by decide)⟩

/-- C6: a password-reset token is single-use: a successful `resetPassword`
clears both `passwordResetToken` and `passwordResetExpires` on the updated
record, the persisted collection holds only that cleared record, and
re-presenting the same plaintext token at any later time matches no user. -/
theorem resetPassword_single_use (sha hash : String → String) (nowMs : Nat)
    (u u' : UserRec) (users' : List UserRec) (plain newPw : String)
    (h : resetPassword sha hash nowMs [u] plain newPw = .ok (u', users')) :
    u'.passwordResetToken = none ∧ u'.passwordResetExpires = none ∧
    users' = [u'] ∧
    ∀ now2 : Nat, resetLookup sha now2 users' plain = none := by
  unfold resetPassword at h
  split at h
  next => exact absurd h (by simp)
  next w hl =>
    split at h
    next => exact absurd h (by simp)
    next hlen =>
      have hw : w = u := by
        have hmem := List.mem_of_find?_eq_some hl
        simpa [resetLookup] using hmem
      subst hw
      have hp := Except.ok.inj h
      have h1 : u' = { w with
          password := hash newPw,
          passwordResetExpires := none,
          passwordResetToken := none,
          passwordChangedAt := some (passwordChangedAtOnSave nowMs) } :=
        (congrArg Prod.fst hp).symm
      have h2 : users' = saveUser [w] u' := by
        rw [h1]
        exact (congrArg Prod.snd hp).symm
      subst h1
      refine ⟨rfl, rfl, ?_, ?_⟩
      · rw [h2]
        simp [saveUser]
      · intro now2
        rw [h2]
        simp [resetLookup, saveUser, List.find?]

/-- Witness for C6: with identity hash models, user 2 holds reset-hash `rt`
expiring at 100000 ms; resetting at 50000 ms with password `password1`
succeeds and the cleared record no longer matches `rt` at 60000 ms. -/
theorem resetPassword_single_use_witness :
    ({ id := 2, name := "Bob", email := "bob@example.com", role := "user",
       password := "password1", active := true,
       passwordChangedAt := some (passwordChangedAtOnSave 50000),
       passwordResetToken := none, passwordResetExpires := none }
      : UserRec).passwordResetToken = none ∧
    resetLookup (fun s => s) 60000
      [{ id := 2, name := "Bob", email := "bob@example.com", role := "user",
         password := "password1", active := true,
         passwordChangedAt := some (passwordChangedAtOnSave 50000),
         passwordResetToken := none, passwordResetExpires := none }] "rt"
      = none := by
  have h := resetPassword_single_use (fun s => s) (fun s => s) 50000
    { id := 2, name := "Bob", email := "bob@example.com", role := "user",
      password := "oldpassword", active := true, passwordChangedAt := none,
      passwordResetToken := some "rt", passwordResetExpires := some 100000 }
    { id := 2, name := "Bob", email := "bob@example.com", role := "user",
      password := "password1", active := true,
      passwordChangedAt := some (passwordChangedAtOnSave 50000),
      passwordResetToken := none, passwordResetExpires := none }
    [{ id := 2, name := "Bob", email := "bob@example.com", role := "user",
       password := "password1", active := true,
       passwordChangedAt := some (passwordChangedAtOnSave 50000),
       passwordResetToken := none, passwordResetExpires := none }]
    "rt" "password1" (by rfl)
  exact ⟨h.1, h.2.2.2 60000⟩

/-- C7: `createPasswordResetToken` fixes the persisted expiry at exactly
issuance + 10 minutes (600000 ms), and a presentation strictly after that
expiry matches no user, even though the presented plaintext still hashes to
the persisted `passwordResetToken`. -/
theorem passwordResetExpires_ten_minutes (sha : String → String) (nowMs : Nat)
    (u : UserRec) (randomTok : String) :
    ((createPasswordResetToken sha nowMs u randomTok).2).passwordResetExpires
      = some (nowMs + 10 * 60 * 1000) ∧
    ((createPasswordResetToken sha nowMs u randomTok).2).passwordResetToken
      = some (sha randomTok) ∧
    ∀ now2 : Nat, nowMs + 10 * 60 * 1000 < now2 →
      resetLookup sha now2
        [(createPasswordResetToken sha nowMs u randomTok).2] randomTok = none := by
  refine ⟨rfl, rfl, ?_⟩
  intro now2 h2
  have hn : ¬ (now2 < nowMs + 10 * 60 * 1000) := by omega
  simp [resetLookup, createPasswordResetToken, List.find?, hn]

/-- Witness for C7: issuing at 0 ms sets expiry 600000 ms, and the lookup at
600001 ms fails. -/
theorem passwordResetExpires_ten_minutes_witness :
    ((createPasswordResetToken (fun s => s) 0 demoUserQuickChange
        "rt").2).passwordResetExpires = some 600000 ∧
    resetLookup (fun s => s) 600001
      [(createPasswordResetToken (fun s => s) 0 demoUserQuickChange "rt").2]
      "rt" = none := by
  have h := passwordResetExpires_ten_minutes (fun s => s) 0 demoUserQuickChange "rt"
  exact ⟨h.1, h.2.2 600001 (by decide)⟩

/-- C8: when sending the password-reset email fails, `forgotPassword`
compensates: the persisted post-state holds the user's record with both
`passwordResetToken` and `passwordResetExpires` cleared, and the surfaced
error is a 500 (the handler reports it with status code 500). -/
theorem forgotPassword_email_failure_compensation (sha : String → String)
    (nowMs : Nat) (users : List UserRec) (email randomTok : String)
    (u : UserRec) (hfind : findOneByEmail users email = some u) :
    (forgotPassword sha nowMs users email randomTok false).2
      = .emailFail (mkAppError
          "There was an error sendig the email. PLease try again!" (some 500)) ∧
    (mkAppError "There was an error sendig the email. PLease try again!"
        (some 500)).statusCode = some 500 ∧
    handledStatusCode (mkAppError
        "There was an error sendig the email. PLease try again!" (some 500)) = 500 ∧
    ∀ v ∈ (forgotPassword sha nowMs users email randomTok false).1,
      v.id = u.id → v.passwordResetToken = none ∧ v.passwordResetExpires = none := by
  refine ⟨by simp [forgotPassword, hfind], rfl, rfl, ?_⟩
  intro v hv hid
  have hstate : (forgotPassword sha nowMs users email randomTok false).1
      = saveUser (saveUser users (createPasswordResetToken sha nowMs u randomTok).2)
          { (createPasswordResetToken sha nowMs u randomTok).2 with
            passwordResetToken := none, passwordResetExpires := none } := by
    simp [forgotPassword, hfind]
  rw [hstate] at hv
  have hv2 : v = { (createPasswordResetToken sha nowMs u randomTok).2 with
      passwordResetToken := none, passwordResetExpires := none } :=
    mem_saveUser_id hv hid
  rw [hv2]
  exact ⟨rfl, rfl⟩

/-- Witness for C8: user 2 requests a reset at 1000 ms, the mail transport
fails, and the persisted record (id 2) carries no reset token and no expiry,
with the 500 outcome surfaced. -/
theorem forgotPassword_email_failure_compensation_witness :
    (forgotPassword (fun s => "#" ++ s) 1000
        [{ id := 2, name := "Bob", email := "bob@example.com", role := "user",
           password := "oldpassword", active := true, passwordChangedAt := none,
           passwordResetToken := none, passwordResetExpires := none }]
        "bob@example.com" "rnd" false).2
      = .emailFail (mkAppError
          "There was an error sendig the email. PLease try again!" (some 500)) ∧
    ({ id := 2, name := "Bob", email := "bob@example.com", role := "user",
       password := "oldpassword", active := true, passwordChangedAt := none,
       passwordResetToken := none, passwordResetExpires := none } : UserRec).id = 2 := by
  have h := forgotPassword_email_failure_compensation (fun s => "#" ++ s) 1000
    [{ id := 2, name := "Bob", email := "bob@example.com", role := "user",
       password := "oldpassword", active := true, passwordChangedAt := none,
       passwordResetToken := none, passwordResetExpires := none }]
    "bob@example.com" "rnd"
    { id := 2, name := "Bob", email := "bob@example.com", role := "user",
      password := "oldpassword", active := true, passwordChangedAt := none,
      passwordResetToken := none, passwordResetExpires := none }
    (by rfl)
  exact ⟨h.1, rfl⟩

/-- C9: `signup` hands the caller-supplied `role` straight to `User.create`:
whenever the body's other fields pass validation, a supplied role that is one
of the schema's enumeration values — including `admin` and `lead-guide` — is
stored verbatim on the created user, and the `user` default applies only when
the field is absent; nothing restricts privileged roles. -/
theorem signup_role_passthrough (hash : String → String)
    (isEmail : String → Bool) (body : SignupBody) (newId : Nat)
    (nm em pw : String)
    (hnm : body.name = some nm) (hem : body.email = some em)
    (hpw : body.password = some pw) (hpc : body.passwordConfirm = some pw)
    (hmail : isEmail (jsLowerString em) = true) (hlen : 8 ≤ pw.length) :
    (∀ r, body.role = some r → r ∈ roleEnum →
      signup hash isEmail body newId = .ok
        { id := newId, name := nm, email := jsLowerString em, role := r,
          password := hash pw, active := true, passwordChangedAt := none,
          passwordResetToken := none, passwordResetExpires := none }) ∧
    (body.role = none →
      signup hash isEmail body newId = .ok
        { id := newId, name := nm, email := jsLowerString em, role := "user",
          password := hash pw, active := true, passwordChangedAt := none,
          passwordResetToken := none, passwordResetExpires := none }) ∧
    "admin" ∈ roleEnum ∧ "lead-guide" ∈ roleEnum := by
  have hnlt : ¬ pw.length < 8 := Nat.not_lt.mpr hlen
  refine ⟨?_, ?_, by decide, by decide⟩
  · intro r hrole hrin
    simp [signup, hnm, hem, hpw, hpc, hmail, hrole, hrin, hnlt]
  · intro hrole
    simp [signup, hnm, hem, hpw, hpc, hmail, hrole, hnlt]

/-- Witness for C9: a signup body carrying `role: "admin"` (with the email
validator accepting and the bcrypt hash modelled as identity) creates an
admin user. -/
theorem signup_role_passthrough_witness :
    signup (fun s => s) (fun _ => true)
      { name := some "Eve", email := some "eve@example.com",
        role := some "admin", password := some "password1",
        passwordConfirm := some "password1" } 7
      = .ok { id := 7, name := "Eve", email := jsLowerString "eve@example.com",
              role := "admin", password := (fun s : String => s) "password1",
              active := true, passwordChangedAt := none,
              passwordResetToken := none, passwordResetExpires := none } := by
  exact (signup_role_passthrough (fun s => s) (fun _ => true)
    { name := some "Eve", email := some "eve@example.com",
      role := some "admin", password := some "password1",
      passwordConfirm := some "password1" } 7
    "Eve" "eve@example.com" "password1"
    rfl rfl rfl rfl rfl (by decide)).1 "admin" rfl (by decide)

/-- C10: on a login request with a missing (or empty, equally falsy) email or
password, the error is constructed from the message alone — the intended 400
is passed as a separate argument to `next`, not to the `AppError` constructor
— so its `statusCode` is `undefined`, its `status` is computed from the
string `"undefined"` as `'error'`, and the global handler defaults the
response to a 500-class `'error'`, not a 400. -/
theorem login_missing_credentials_500 (verifyPw : String → String → Bool)
    (users : List UserRec) (body : LoginBody)
    (h : body.email.getD "" = "" ∨ body.password.getD "" = "") :
    login verifyPw users body
      = .err (mkAppError "Please provide email and password" none) ∧
    (mkAppError "Please provide email and password" none).statusCode = none ∧
    (mkAppError "Please provide email and password" none).status = "error" ∧
    handledStatusCode (mkAppError "Please provide email and password" none) = 500 ∧
    handledStatus (mkAppError "Please provide email and password" none) = "error" := by
  refine ⟨?_, rfl, by decide, rfl, by decide⟩
  rcases h with h | h <;> simp [login, h]

/-- Witness for C10: a login body with no email at all yields the
undefined-status-code error, surfaced by the handler as a 500 `'error'`. -/
theorem login_missing_credentials_500_witness :
    login (fun _ _ => true) []
        { email := none, password := some "password1" }
      = .err (mkAppError "Please provide email and password" none) ∧
    handledStatusCode (mkAppError "Please provide email and password" none) = 500 := by
  have h := login_missing_credentials_500 (fun _ _ => true) []
    { email := none, password := some "password1" } (Or.inl rfl)
  exact ⟨h.1, h.2.2.2.1⟩

end Natours
